import Mathlib

/-
Verification of the message-dispatch and reply pipeline of
`src/wechat_listener.py`.

The embedding below models, directly from the source:
  * `DeepSeekAPI.get_reply` (lines 79-138): the bounded-retry completion
    client.  The HTTP endpoint is abstracted as a function from the user
    message and the attempt index to one of the outcome classes the code
    distinguishes by exception type / response shape.
  * the splitting phase of `WeChatListener.send_long_message`
    (lines 216-228): the while-loop that cuts an oversized reply at the
    last newline at or before offset `max_message_length`.
  * the banner-stripping send phase of `send_long_message`
    (lines 230-238).
  * `WeChatListener.process_message` (lines 182-214): message filtering
    (self-echo suppression, system-phrase skip, type/watch-list gating)
    and the per-message error handling around reply sending.
  * `WeChatListener.send_time_report` (lines 240-254) together with its
    guard in `listen_messages` (line 268): the hourly announcement.

Machine effects are made explicit: the `last_message_time` update is a
boolean flag in the result, every text handed to `chat.SendMsg` is
recorded in order, and exceptions raised by `SendMsg` are injected
through an environment flag.  The splitting loop of `send_long_message`
is embedded with explicit fuel because (as proved below) it does not
terminate on every input.
-/

/-- Outcome classes of one HTTP attempt in `DeepSeekAPI.get_reply`,
one per handler in the source: a 2xx response whose JSON has a truthy
`choices` field (`ok`), a 2xx response without it (`noChoices`, line 113),
`requests.exceptions.Timeout` (line 117), any other
`requests.exceptions.RequestException` including non-2xx statuses raised
by `raise_for_status` (line 126), and any other exception while handling
the response (line 134). -/
inductive ApiOutcome where
  | ok (content : String)
  | noChoices
  | timeout
  | requestError
  | otherError
deriving DecidableEq

/-- Python truthiness of `DeepSeekAPI.API_KEY` at line 81: the key is
configured when it is present and non-empty. -/
def keyConfigured : Option String → Bool
  | none => false
  | some k => !(k == "")

/-- The retry loop of `get_reply` (lines 85-136).  `attempt` is the
Python loop index; `gas` maintains the invariant `gas = retries - attempt`,
so the source's `attempt < retries` test (lines 118, 128) is exactly
`gas > 0`.  Returns the reply string together with the number of HTTP
attempts performed.  Every branch of the final attempt returns, so the
trailing `return "服务暂时不可用，请稍后再试"` at line 138 is unreachable
and has no counterpart here. -/
def get_reply_loop (env : String → Nat → ApiOutcome) (message : String) :
    Nat → Nat → String × Nat
  | attempt, gas =>
    match env message attempt, gas with
    | .ok c, _ => ("🤖【DeepSeek生成】\n" ++ c, attempt + 1)
    | .noChoices, _ => ("我还在思考中，请稍后再试", attempt + 1)
    | .timeout, g + 1 => get_reply_loop env message (attempt + 1) g
    | .timeout, 0 => ("请求超时，请稍后再试", attempt + 1)
    | .requestError, g + 1 => get_reply_loop env message (attempt + 1) g
    | .requestError, 0 => ("网络连接出现问题", attempt + 1)
    | .otherError, _ => ("处理消息时发生错误", attempt + 1)

/-- `DeepSeekAPI.get_reply(message, retries)` (lines 79-138).  The result
pairs the returned string with the number of HTTP attempts performed;
`0` attempts models returning before any network I/O. -/
def get_reply (key : Option String) (env : String → Nat → ApiOutcome)
    (message : String) (retries : Nat) : String × Nat :=
  if keyConfigured key then get_reply_loop env message 0 retries
  else ("❌ 服务未配置，请先设置API密钥", 0)

/-- An endpoint that times out on every attempt. -/
def timeoutEnv : String → Nat → ApiOutcome := fun _ _ => ApiOutcome.timeout

/-- `message.rfind('\n', 0, stop)` (line 220): the greatest index `i < stop`
with `s[i] = '\n'`, as an `Option` in place of Python's `-1`. -/
def rfindNl (s : List Char) (stop : Nat) : Option Nat :=
  match (s.take stop).reverse.findIdx? (fun c => c == '\n') with
  | none => none
  | some j => some ((s.take stop).length - 1 - j)

/-- One iteration of the splitting loop of `send_long_message`
(lines 219-224), for the case `len(message) > max_message_length`:
cut at the last newline at or before offset `maxLen`, or exactly at
`maxLen` when there is none; the emitted part excludes that newline,
which stays at the head of the remainder. -/
def splitStep (maxLen : Nat) (message : List Char) : List Char × List Char :=
  let si : Nat :=
    match rfindNl message maxLen with
    | some i => i
    | none => maxLen
  (message.take si, message.drop si)

/-- The whole splitting loop of `send_long_message` (lines 217-228), with
explicit fuel: `some parts` when the `while message:` loop finishes within
`fuel` iterations, `none` when the fuel is exhausted first. -/
def splitParts (maxLen : Nat) : Nat → List Char → Option (List (List Char))
  | 0, message => if message.isEmpty then some [] else none
  | fuel + 1, message =>
    if message.isEmpty then some []
    else if maxLen < message.length then
      match splitParts maxLen fuel (splitStep maxLen message).2 with
      | some parts => some ((splitStep maxLen message).1 :: parts)
      | none => none
    else some [message]

/-- Substring containment on character lists, Python's `needle in hay`
(line 195, line 232). -/
def containsSubL (needle : List Char) : List Char → Bool
  | [] => needle.isEmpty
  | c :: rest => needle.isPrefixOf (c :: rest) || containsSubL needle rest

/-- The `skip_keywords` list of `process_message` (line 194). -/
def skip_keywords : List String :=
  ["以下为新消息", "收到请回复", "补充通知", "网络连接出现问题"]

/-- `any(keyword in content for keyword in skip_keywords)` (line 195). -/
def containsKeyword (content : String) : Bool :=
  skip_keywords.any (fun k => containsSubL k.data content.data)

/-- The success banner prefixed to generated replies (line 112). -/
def bannerStr : String := "🤖【DeepSeek生成】"

/-- The per-part edit of the send phase of `send_long_message`
(lines 232-233): for a non-first part that still contains the banner,
remove every occurrence of the banner followed by a newline. -/
def sendPartText (i : Nat) (part : String) : String :=
  if 0 < i ∧ containsSubL bannerStr.data part.data then
    part.replace (bannerStr ++ "\n") ""
  else part

/-- The texts handed to `chat.SendMsg` by the send phase of
`send_long_message` (lines 230-238), in order.  A failing send is logged
and the loop continues (lines 237-238), so every part is attempted. -/
def sendLongAttempts : Nat → List String → List String
  | _, [] => []
  | i, p :: rest => sendPartText i p :: sendLongAttempts (i + 1) rest

/-- An incoming message as `process_message` reads it: `msg.sender`,
`msg.type`, `msg.content` (lines 183-187). -/
structure Msg where
  sender : String
  type : String
  content : String
deriving DecidableEq

/-- Environment for `process_message`: the completion client's reply for
a given content (already a total function, see `get_reply`), and whether
`chat.SendMsg` raises for a given text. -/
structure SendEnv where
  reply : String → String
  sendFails : String → Bool

/-- Observable effects of one `process_message` call:
whether `self.last_message_time[who]` was assigned (line 191), whether
the message reached the completion client (line 201), and the ordered
texts passed to `chat.SendMsg` (`none` when the splitting loop of
`send_long_message` diverges, so no send phase is ever reached). -/
structure ProcResult where
  updatedLastSeen : Bool
  forwarded : Bool
  sends : Option (List String)
deriving DecidableEq

/-- `WeChatListener.process_message(chat, msg)` (lines 182-214), with the
chunker's fuel made explicit.  The `try/except` at lines 200-214 is
modelled by the `sendFails` branch: a raising `SendMsg` is answered with
a best-effort apology whose own failure is swallowed (lines 211-214), so
the function never propagates an exception. -/
def process_message (fuel : Nat) (selfName : String) (listenList : List String)
    (maxLen : Nat) (env : SendEnv) (who : String) (msg : Msg) : ProcResult :=
  if msg.sender == selfName then
    ⟨false, false, some []⟩
  else if containsKeyword msg.content then
    ⟨true, false, some []⟩
  else if msg.type == "friend" && listenList.contains who then
    let apiReply := env.reply msg.content
    if maxLen < apiReply.length then
      match splitParts maxLen fuel apiReply.data with
      | some parts => ⟨true, true, some (sendLongAttempts 0 (parts.map String.mk))⟩
      | none => ⟨true, true, none⟩
    else if env.sendFails apiReply then
      ⟨true, true, some [apiReply, "抱歉，处理消息时出了点问题，请再试一次"]⟩
    else
      ⟨true, true, some [apiReply]⟩
  else
    ⟨true, false, some []⟩

/-- One peer's batch in `listen_messages` (lines 274-276): each message
is handed to `process_message` in arrival order. -/
def processBatch (fuel : Nat) (selfName : String) (listenList : List String)
    (maxLen : Nat) (env : SendEnv) (who : String) (msgs : List Msg) :
    List ProcResult :=
  msgs.map (process_message fuel selfName listenList maxLen env who)

/-- An environment whose replies echo the content and whose sends all
succeed. -/
def envId : SendEnv := ⟨fun s => s, fun _ => false⟩

/-- Environment for the batch-isolation scenario: replies prefix the
content with "re:", and the send of the reply to content "m2" raises. -/
def c6Env : SendEnv := ⟨fun s => "re:" ++ s, fun s => s == "re:m2"⟩

/-- A clock reading as `send_time_report` consumes it (`now.hour`,
`now.minute`, `now.second`, lines 242-245). -/
structure Clock where
  hour : Nat
  minute : Nat
  second : Nat
deriving DecidableEq

/-- `WeChatListener.send_time_report` (lines 240-254) acting on
`self.last_reported_hour`.  `sendOk` says whether `self.wx.SendMsg`
succeeds; when it raises, the `except` at line 253 fires before
`last_reported_hour` is assigned, so the state is unchanged and nothing
was sent.  Returns the fired clock reading (if an announcement was sent)
and the new `last_reported_hour`. -/
def send_time_report (last : Int) (c : Clock) (sendOk : Bool) :
    Option Clock × Int :=
  if c.minute = 0 ∧ c.second < 10 ∧ (c.hour : Int) ≠ last then
    if sendOk then (some c, (c.hour : Int)) else (none, last)
  else (none, last)

/-- The report check of one loop iteration (lines 268-269):
`send_time_report` runs only when `self.time_report` is enabled. -/
def reportStep (enabled : Bool) (last : Int) (c : Clock) (sendOk : Bool) :
    Option Clock × Int :=
  if enabled then send_time_report last c sendOk else (none, last)

/-- The announcements actually sent across a sequence of loop iterations,
threading `last_reported_hour` (initially `-1`, line 163). -/
def reportRun (enabled : Bool) : Int → List (Clock × Bool) → List Clock
  | _, [] => []
  | last, e :: rest =>
    match reportStep enabled last e.1 e.2 with
    | (some c, last2) => c :: reportRun enabled last2 rest
    | (none, last2) => reportRun enabled last2 rest

lemma splitStep_append (maxLen : Nat) (message : List Char) :
    (splitStep maxLen message).1 ++ (splitStep maxLen message).2 = message := by
  simp [splitStep, List.take_append_drop]

/-- C1: whenever the splitting phase of `send_long_message` terminates,
the segments it produced (taken before the send phase's banner
stripping, i.e. with the stripped banner re-inserted), concatenated in
order, reconstruct the original reply text exactly. -/
theorem c1_split_roundtrip (text : List Char) (maxLen fuel : Nat)
    (parts : List (List Char)) (hpos : 0 < maxLen)
    (h : splitParts maxLen fuel text = some parts) :
    parts.flatten = text := by
  induction fuel generalizing text parts with
  | zero =>
    unfold splitParts at h
    split at h
    · next he =>
      cases h
      simpa using (List.isEmpty_iff.mp he).symm
    · cases h
  | succ fuel ih =>
    unfold splitParts at h
    split at h
    · next he =>
      cases h
      simpa using (List.isEmpty_iff.mp he).symm
    · next he =>
      split at h
      · cases hrec : splitParts maxLen fuel (splitStep maxLen text).2 with
        | none => rw [hrec] at h; cases h
        | some parts2 =>
          rw [hrec] at h
          cases h
          have := ih _ _ hrec
          simp [List.flatten, this, splitStep_append]
      · cases h
        simp

/-- Witness for C1 at a concrete input: `"ab\ncd"` with `maxLen = 3`
splits at the newline into `"ab"` and `"\ncd"`, whose concatenation is
the original text. -/
theorem c1_split_roundtrip_witness :
    (["ab".data, "\ncd".data] : List (List Char)).flatten = "ab\ncd".data :=
  c1_split_roundtrip "ab\ncd".data 3 10 ["ab".data, "\ncd".data]
    (by decide) (by decide)

/-- C2: the splitting loop of `send_long_message` does NOT terminate on
every input.  On `"\nabc"` with `maxLen = 2`, `rfind('\n', 0, 2)`
returns index `0`, so the emitted part is empty and the remainder is the
whole message again: no amount of fuel makes the loop finish.  (The
pattern is reachable with the default `max_message_length = 2000`: after
a cut at a newline the remainder starts with `'\n'`; if it is still
longer than 2000 characters and has no other newline among its first
2000, the loop repeats forever with an unchanged remainder.) -/
theorem c2_split_divergence :
    ∀ fuel : Nat, splitParts 2 fuel ("\nabc".data) = none := by
  intro fuel
  induction fuel with
  | zero => decide
  | succ fuel ih =>
    have hstep : (splitStep 2 ("\nabc".data)).2 = "\nabc".data := by decide
    have hne : (("\nabc".data).isEmpty) = false := by decide
    have hlen : 2 < ("\nabc".data).length := by decide
    simp only [splitParts, hne, Bool.false_eq_true, if_false, if_pos hlen, hstep, ih]

lemma get_reply_loop_timeout (msg : String) :
    ∀ gas attempt, get_reply_loop timeoutEnv msg attempt gas =
      ("请求超时，请稍后再试", attempt + gas + 1) := by
  intro gas
  induction gas with
  | zero =>
    intro attempt
    simp [get_reply_loop, timeoutEnv]
  | succ g ih =>
    intro attempt
    simp only [get_reply_loop, timeoutEnv, ih]
    simp
    omega

/-- C3, counterexample: for an endpoint that times out on every attempt
(default `retries = 2`), the value `get_reply` returns is NOT the
"service temporarily unavailable" fallback of line 138 — that return is
unreachable; the timeout handler's own fallback is returned instead. -/
theorem c3_counterexample :
    (get_reply (some "k") timeoutEnv "hi" 2).1 ≠ "服务暂时不可用，请稍后再试" := by
  decide

/-- C3, amended: `get_reply` never raises (it is a total function of its
environment); for an endpoint that times out on every attempt, exactly
`retries + 1` attempts occur and the value returned after the last
attempt is the timeout fallback "请求超时，请稍后再试" — not the
"服务暂时不可用" string, whose `return` at line 138 is dead code. -/
theorem c3_timeout_exhaustion (key : Option String) (msg : String)
    (retries : Nat) (hkey : keyConfigured key = true) :
    get_reply key timeoutEnv msg retries =
      ("请求超时，请稍后再试", retries + 1) := by
  simp [get_reply, hkey, get_reply_loop_timeout msg retries 0]

/-- Witness for C3 (amended) at the default `retries = 2`: three
attempts, timeout fallback. -/
theorem c3_timeout_exhaustion_witness :
    get_reply (some "k") timeoutEnv "hi" 2 = ("请求超时，请稍后再试", 2 + 1) :=
  c3_timeout_exhaustion (some "k") "hi" 2 (by decide)

/-- C8: when the transport succeeds but the response lacks a truthy
`choices` field on the first attempt, `get_reply` returns the
"still thinking" fallback after exactly that one attempt, performing no
retry, whatever the retry budget. -/
theorem c8_no_choices_no_retry (key : Option String)
    (env : String → Nat → ApiOutcome) (msg : String) (retries : Nat)
    (hkey : keyConfigured key = true)
    (henv : env msg 0 = ApiOutcome.noChoices) :
    get_reply key env msg retries = ("我还在思考中，请稍后再试", 1) := by
  simp [get_reply, hkey, get_reply_loop, henv]

/-- Witness for C8: concrete malformed-response endpoint, one attempt. -/
theorem c8_no_choices_no_retry_witness :
    get_reply (some "k") (fun _ _ => ApiOutcome.noChoices) "hi" 2 =
      ("我还在思考中，请稍后再试", 1) :=
  c8_no_choices_no_retry (some "k") (fun _ _ => ApiOutcome.noChoices) "hi" 2
    (by decide) rfl

/-- C10: with no credential configured, `get_reply` returns the fixed
"not configured" message and performs zero HTTP attempts, for every
message, endpoint behaviour and retry budget. -/
theorem c10_not_configured (key : Option String)
    (env : String → Nat → ApiOutcome) (msg : String) (retries : Nat)
    (hkey : keyConfigured key = false) :
    get_reply key env msg retries = ("❌ 服务未配置，请先设置API密钥", 0) := by
  simp [get_reply, hkey]

/-- Witness for C10: `API_KEY = None`. -/
theorem c10_not_configured_witness :
    get_reply none timeoutEnv "hello" 2 = ("❌ 服务未配置，请先设置API密钥", 0) :=
  c10_not_configured none timeoutEnv "hello" 2 rfl

/-- C4: a message whose sender equals the local user's own display name
is skipped at once (line 187): it is never forwarded to the completion
client and nothing is sent, for any watch list, content, environment and
fuel. -/
theorem c4_self_never_forwarded (fuel : Nat) (selfName : String)
    (listenList : List String) (maxLen : Nat) (env : SendEnv) (who : String)
    (msg : Msg) (h : msg.sender = selfName) :
    process_message fuel selfName listenList maxLen env who msg =
      ⟨false, false, some []⟩ := by
  simp [process_message, h]

/-- Witness for C4: a self-authored message addressed to a watched peer
with qualifying type and content is still dropped. -/
theorem c4_self_never_forwarded_witness :
    process_message 0 "Bot" ["Alice"] 2000 envId "Alice"
        ⟨"Bot", "friend", "hi"⟩ = ⟨false, false, some []⟩ :=
  c4_self_never_forwarded 0 "Bot" ["Alice"] 2000 envId "Alice"
    ⟨"Bot", "friend", "hi"⟩ rfl

/-- C5, counterexample: a self-authored message returns at line 189,
BEFORE the `last_message_time` assignment at line 191, so its peer's
LastSeen entry is not updated — the claim's "whether accepted or
rejected (self-authored, ...)" fails for the self-authored case. -/
theorem c5_counterexample :
    (process_message 0 "Bot" ["Alice"] 2000 envId "Alice"
        ⟨"Bot", "friend", "hello"⟩).updatedLastSeen = false := by
  decide

/-- C5, amended: every processed message EXCEPT self-authored ones
updates the peer's LastSeen timestamp, whatever the outcome
(system-phrase skip, wrong type, peer not watched, or accepted);
self-authored messages return before the update. -/
theorem c5_lastseen_amended (fuel : Nat) (selfName : String)
    (listenList : List String) (maxLen : Nat) (env : SendEnv) (who : String)
    (msg : Msg) (h : msg.sender ≠ selfName) :
    (process_message fuel selfName listenList maxLen env who msg).updatedLastSeen
      = true := by
  have hb : (msg.sender == selfName) = false := by simpa using h
  simp only [process_message, hb, Bool.false_eq_true, if_false]
  repeat' split
  all_goals rfl

/-- Witness for C5 (amended): a message from a non-self sender that is
rejected by the type check still updates LastSeen. -/
theorem c5_lastseen_amended_witness :
    (process_message 0 "Bot" ["Alice"] 2000 envId "Alice"
        ⟨"Alice", "system", "hello"⟩).updatedLastSeen = true :=
  c5_lastseen_amended 0 "Bot" ["Alice"] 2000 envId "Alice"
    ⟨"Alice", "system", "hello"⟩ (by decide)

/-- C9: a message whose content contains one of the fixed system/error
substrings is rejected (line 195): it is never forwarded and nothing is
sent, even when sender, type and peer otherwise qualify. -/
theorem c9_keyword_reject (fuel : Nat) (selfName : String)
    (listenList : List String) (maxLen : Nat) (env : SendEnv) (who : String)
    (msg : Msg) (h : containsKeyword msg.content = true) :
    (process_message fuel selfName listenList maxLen env who msg).forwarded
        = false ∧
    (process_message fuel selfName listenList maxLen env who msg).sends
        = some [] := by
  unfold process_message
  rcases Bool.eq_false_or_eq_true (msg.sender == selfName) with hs | hs <;>
    simp [hs, h]

/-- Witness for C9: a qualifying sender/type/peer with a system phrase
inside the content is still rejected. -/
theorem c9_keyword_reject_witness :
    (process_message 0 "Bot" ["Alice"] 2000 envId "Alice"
        ⟨"Alice", "friend", "abc收到请回复xyz"⟩).forwarded = false ∧
    (process_message 0 "Bot" ["Alice"] 2000 envId "Alice"
        ⟨"Alice", "friend", "abc收到请回复xyz"⟩).sends = some [] :=
  c9_keyword_reject 0 "Bot" ["Alice"] 2000 envId "Alice"
    ⟨"Alice", "friend", "abc收到请回复xyz"⟩ (by decide)

/-- C6: in a batch of three messages for a watched peer where sending
the reply to message 2 raises, message 2's handler catches the error and
attempts the apology fallback (lines 209-214), and message 3 is still
processed and answered: one failing message does not abort the batch. -/
theorem c6_failure_isolated :
    processBatch 0 "Bot" ["Alice"] 2000 c6Env "Alice"
        [⟨"Alice", "friend", "m1"⟩, ⟨"Alice", "friend", "m2"⟩,
         ⟨"Alice", "friend", "m3"⟩] =
      [⟨true, true, some ["re:m1"]⟩,
       ⟨true, true, some ["re:m2", "抱歉，处理消息时出了点问题，请再试一次"]⟩,
       ⟨true, true, some ["re:m3"]⟩] := by
  decide

lemma reportStep_fire (enabled : Bool) (last : Int) (c : Clock) (ok : Bool) :
    (enabled = true ∧ c.minute = 0 ∧ c.second < 10 ∧ (c.hour : Int) ≠ last ∧
      reportStep enabled last c ok = (some c, (c.hour : Int))) ∨
    reportStep enabled last c ok = (none, last) := by
  unfold reportStep send_time_report
  cases enabled with
  | false => right; simp
  | true =>
    by_cases hc : c.minute = 0 ∧ c.second < 10 ∧ (c.hour : Int) ≠ last
    · cases ok with
      | true => left; exact ⟨rfl, hc.1, hc.2.1, hc.2.2, by simp [hc]⟩
      | false => right; simp [hc]
    · right; simp [hc]

lemma reportRun_head_ne (enabled : Bool) :
    ∀ (seq : List (Clock × Bool)) (last : Int) (c : Clock) (t : List Clock),
      reportRun enabled last seq = c :: t → (c.hour : Int) ≠ last := by
  intro seq
  induction seq with
  | nil =>
    intro last c t h
    simp [reportRun] at h
  | cons e rest ih =>
    intro last c t h
    rcases reportStep_fire enabled last e.1 e.2 with ⟨_, _, _, hne, hstep⟩ | hstep
    · simp only [reportRun, hstep] at h
      cases h
      exact hne
    · simp only [reportRun, hstep] at h
      exact ih last c t h

lemma reportRun_conditions (enabled : Bool) :
    ∀ (seq : List (Clock × Bool)) (last : Int) (c : Clock),
      c ∈ reportRun enabled last seq →
        enabled = true ∧ c.minute = 0 ∧ c.second < 10 := by
  intro seq
  induction seq with
  | nil =>
    intro last c h
    simp [reportRun] at h
  | cons e rest ih =>
    intro last c h
    rcases reportStep_fire enabled last e.1 e.2 with ⟨hen, hm, hs, _, hstep⟩ | hstep
    · simp only [reportRun, hstep] at h
      rcases List.mem_cons.mp h with rfl | h2
      · exact ⟨hen, hm, hs⟩
      · exact ih _ _ h2
    · simp only [reportRun, hstep] at h
      exact ih _ _ h

lemma reportRun_chain (enabled : Bool) :
    ∀ (seq : List (Clock × Bool)) (last : Int),
      List.Chain' (fun a b => a.hour ≠ b.hour) (reportRun enabled last seq) := by
  intro seq
  induction seq with
  | nil => intro last; simp [reportRun]
  | cons e rest ih =>
    intro last
    rcases reportStep_fire enabled last e.1 e.2 with ⟨_, _, _, _, hstep⟩ | hstep
    · simp only [reportRun, hstep]
      rw [List.chain'_cons']
      refine ⟨?_, ih _⟩
      intro b hb
      cases hh : reportRun enabled (e.1.hour : Int) rest with
      | nil => rw [hh] at hb; cases hb
      | cons b0 t0 =>
        rw [hh] at hb
        simp at hb
        subst hb
        have hne := reportRun_head_ne enabled rest (e.1.hour : Int) b0 t0 hh
        exact fun hEq => hne (by exact_mod_cast hEq.symm)
    · simp only [reportRun, hstep]
      exact ih _

/-- C7, counterexample: across a clock sweep that returns to a
previously reported hour VALUE after a different hour has fired (e.g.
05:00, 06:00, then 05:00 a day later), the announcement fires twice for
hour value 5 — `last_reported_hour` only remembers the most recent hour,
so "at most once per distinct hour value" fails over such sequences. -/
theorem c7_counterexample :
    ¬ ((reportRun true (-1)
          [(⟨5, 0, 0⟩, true), (⟨6, 0, 0⟩, true), (⟨5, 0, 0⟩, true)]).map
        Clock.hour).Nodup := by
  decide

/-- C7, amended: across any sequence of report-condition evaluations,
an announcement is sent only while reporting is enabled, only at minute
0 within the ten-second grace window, and any two CONSECUTIVE
announcements have different hour values — hence at most one
announcement per distinct hour value within any monotone sweep of less
than a full day, though an hour value may fire again after a different
hour has fired in between. -/
theorem c7_report_amended (enabled : Bool) (last : Int)
    (seq : List (Clock × Bool)) :
    (∀ c ∈ reportRun enabled last seq,
        enabled = true ∧ c.minute = 0 ∧ c.second < 10) ∧
    List.Chain' (fun a b => a.hour ≠ b.hour) (reportRun enabled last seq) :=
  ⟨fun c hc => reportRun_conditions enabled seq last c hc,
   reportRun_chain enabled seq last⟩

/-- Witness for C7 (amended): the single announcement fired at 05:00:00
satisfies the firing conditions. -/
theorem c7_report_amended_witness :
    true = true ∧ (Clock.mk 5 0 0).minute = 0 ∧ (Clock.mk 5 0 0).second < 10 :=
  (c7_report_amended true (-1) [(⟨5, 0, 0⟩, true)]).1 ⟨5, 0, 0⟩ (by decide)
